import Mathlib

/-
  Verification development for the NTP client of `cpknight/ntp-clock`
  (src/ntp_client.c, src/ntp_client.h).

  Shallow embedding conventions:
  * C machine integers are modelled as `Nat` / `Int`, with an explicit
    `% 2^32` wherever the C code truncates to `uint32_t`.
  * The C field `initialized` of `ntp_client_state_t` is called `inited`
    here (same meaning, same uses).
  * Nondeterministic system calls (socket, setsockopt, getaddrinfo,
    inet_pton, sendto, select, recvfrom, gettimeofday) are modelled by
    explicit parameters: a `NetEnv` record describing the outcome of each
    call inside `send_ntp_request`, a function `exchange : Nat → _` giving
    the outcome of the i-th transport attempt inside `ntp_sync`, and the
    local wall-clock reading passed as an argument where the C code calls
    `gettimeofday`.
  * `double` arithmetic of `ntp_getCurrentTimeWithMicros` /
    `ntp_getCurrentHundredths` is modelled exactly over `Rat`; the
    concrete values used in theorems below are exactly representable as
    IEEE doubles, so the modelled results agree with the C results there.
  * Lock/unlock/sleep/network-call ordering of `ntp_sync` is additionally
    modelled as an event trace (`ntp_sync_trace`) for the locking claim.
-/

namespace NtpClock

/-- Status codes, mirroring `ntp_status_t` in src/ntp_client.h:
    NTP_OK, NTP_ERROR_NETWORK, NTP_ERROR_TIMEOUT, NTP_ERROR_SERVER,
    NTP_ERROR_INVALID_PARAM, NTP_ERROR_NOT_INIT. -/
inductive NtpStatus where
  | ok
  | errNetwork
  | errTimeout
  | errServer
  | errInvalidParam
  | errNotInit
deriving DecidableEq

/-- Mirror of `ntp_packet_t` (src/ntp_client.c lines 26-42); every field is a
    machine integer (`uint8_t` or `uint32_t`) modelled as `Nat`, holding the
    host-byte-order value after the `ntohl` conversions done by
    `send_ntp_request`. -/
structure NtpPacket where
  li_vn_mode : Nat
  stratum : Nat
  poll : Nat
  precision : Nat
  root_delay : Nat
  root_dispersion : Nat
  ref_id : Nat
  ref_timestamp_sec : Nat
  ref_timestamp_frac : Nat
  orig_timestamp_sec : Nat
  orig_timestamp_frac : Nat
  recv_timestamp_sec : Nat
  recv_timestamp_frac : Nat
  tx_timestamp_sec : Nat
  tx_timestamp_frac : Nat
deriving DecidableEq

/-- Mirror of `ntp_config_t` (src/ntp_client.h). `server_name` is the byte
    content of the C string `char server_name[256]` up to (not including) its
    NUL terminator. -/
structure NtpConfig where
  server_name : List Nat
  server_port : Nat
  timeout_ms : Nat
  retry_count : Nat
  sync_interval : Nat
deriving DecidableEq

/-- Mirror of `ntp_client_state_t` (src/ntp_client.c lines 45-53); `inited`
    is the C field `initialized`. The pthread mutex is not part of the data
    model; the locking discipline is modelled separately by event traces. -/
structure ClientState where
  inited : Bool
  ever_synced : Bool
  config : NtpConfig
  last_sync_time : Int
  ntp_time : Int
  time_offset : Int
deriving DecidableEq

/-- NTP_TIMESTAMP_DELTA: seconds between the 1900 NTP epoch and the 1970
    Unix epoch. -/
def NTP_TIMESTAMP_DELTA : Nat := 2208988800

/-- Mirror of `ntp_time_to_unix_time` (src/ntp_client.c lines 67-69):
    `return ntp_seconds - NTP_TIMESTAMP_DELTA;` with `ntp_seconds : uint32_t`
    and result type `time_t` (64-bit signed). In C the subtraction happens in
    `unsigned long` (64-bit) and the wrapped value converts back to the exact
    mathematical difference, since |ntp_seconds - delta| < 2^63 always; so the
    function is exact `Int` subtraction. -/
def ntp_time_to_unix_time (ntp_seconds : Nat) : Int :=
  (ntp_seconds : Int) - (NTP_TIMESTAMP_DELTA : Int)

/-- Mirror of `unix_time_to_ntp_time` (src/ntp_client.c lines 74-76):
    `return unix_seconds + NTP_TIMESTAMP_DELTA;` with result type `uint32_t`.
    The C sum is computed modulo 2^64 and then truncated to `uint32_t`, which
    equals the mathematical sum reduced modulo 2^32. `Int.emod` with positive
    modulus yields the representative in [0, 2^32), matching the unsigned
    result. -/
def unix_time_to_ntp_time (unix_seconds : Int) : Nat :=
  ((unix_seconds + (NTP_TIMESTAMP_DELTA : Int)) % 4294967296).toNat

/-- Outcome environment for one call of `send_ntp_request`
    (src/ntp_client.c lines 149-229): the success/failure of each system call
    it makes, in program order, plus the packet content delivered by
    `recvfrom` (already in host byte order, i.e. after the `ntohl` calls).
    `select_result` is the return value of `select` (negative = error,
    0 = timeout, positive = ready); `recv_result` is the return value of
    `recvfrom` (negative = error, otherwise the received datagram length in
    bytes). -/
structure NetEnv where
  socket_ok : Bool
  setsockopt_ok : Bool
  resolve_ok : Bool
  inet_pton_ok : Bool
  send_ok : Bool
  select_result : Int
  recv_result : Int
  received : NtpPacket
deriving DecidableEq

/-- Mirror of `send_ntp_request` (src/ntp_client.c lines 149-229). Each early
    return of the C function is reproduced in order:
    socket failure → NETWORK; setsockopt failure → NETWORK;
    resolve_hostname failure → NETWORK (line 176-179); inet_pton failure →
    NETWORK; sendto failure → NETWORK; select < 0 → NETWORK; select == 0 →
    TIMEOUT; recvfrom < 0 → NETWORK; otherwise NTP_OK with the received
    packet. Note the C code checks only `recvfrom(...) < 0`: a short datagram
    (nonnegative length below 48) is not rejected. The packet component of the
    result is only meaningful when the status is `ok`, exactly as the C
    `response` buffer is only used by the caller after NTP_OK. -/
def send_ntp_request (env : NetEnv) : NtpStatus × NtpPacket :=
  if env.socket_ok = false then (NtpStatus.errNetwork, env.received)
  else if env.setsockopt_ok = false then (NtpStatus.errNetwork, env.received)
  else if env.resolve_ok = false then (NtpStatus.errNetwork, env.received)
  else if env.inet_pton_ok = false then (NtpStatus.errNetwork, env.received)
  else if env.send_ok = false then (NtpStatus.errNetwork, env.received)
  else if env.select_result < 0 then (NtpStatus.errNetwork, env.received)
  else if env.select_result = 0 then (NtpStatus.errTimeout, env.received)
  else if env.recv_result < 0 then (NtpStatus.errNetwork, env.received)
  else (NtpStatus.ok, env.received)

/-- Retry loop of `ntp_sync` (src/ntp_client.c lines 282-298), a do-while:
    attempt number `attempts` runs, `attempts` is incremented, and the loop
    repeats while `status != NTP_OK && attempts < retry_count`. Here
    `remaining` is the number of further attempts the guard still allows,
    i.e. `retry_count - attempts - 1` (clamped at 0), so the recursion is
    structural. Returns (final value of `attempts`, last status, last
    response). -/
def syncLoopAux (exchange : Nat → NtpStatus × NtpPacket) :
    Nat → Nat → Nat × NtpStatus × NtpPacket
  | attempts, 0 => (attempts + 1, exchange attempts)
  | attempts, remaining + 1 =>
    if (exchange attempts).1 = NtpStatus.ok then (attempts + 1, exchange attempts)
    else syncLoopAux exchange (attempts + 1) remaining

/-- Entry to the retry loop with `attempts = 0`; a do-while body always runs
    once, and the guard `attempts < retry_count` allows `retry_count - 1`
    further iterations. -/
def syncLoop (exchange : Nat → NtpStatus × NtpPacket) (retryCount : Nat) :
    Nat × NtpStatus × NtpPacket :=
  syncLoopAux exchange 0 (retryCount - 1)

/-- Mirror of `ntp_sync` (src/ntp_client.c lines 267-335), additionally
    returning the final value of the local variable `attempts` (the number of
    `send_ntp_request` calls performed). `exchange i` is the outcome of the
    i-th transport attempt; `localNow` is `local_time.tv_sec` from the
    `gettimeofday` call at line 321. Steps, in source order: NOT_INIT guard;
    retry loop; propagate a non-OK status unchanged; mode validation
    `(li_vn_mode & 0x07) != 4 && != 2` → SERVER; stratum validation
    `stratum == 0 || stratum >= 16` → SERVER; otherwise commit
    `time_offset = server_time - now`, `last_sync_time = now`,
    `ntp_time = server_time`, `ever_synced = true`. -/
def ntp_sync_full (st : ClientState) (exchange : Nat → NtpStatus × NtpPacket)
    (localNow : Int) : NtpStatus × ClientState × Nat :=
  if st.inited = false then (NtpStatus.errNotInit, st, 0)
  else
    let res := syncLoop exchange st.config.retry_count
    let attempts := res.1
    let status := res.2.1
    let response := res.2.2
    if status ≠ NtpStatus.ok then (status, st, attempts)
    else if response.li_vn_mode &&& 7 ≠ 4 ∧ response.li_vn_mode &&& 7 ≠ 2 then
      (NtpStatus.errServer, st, attempts)
    else if response.stratum = 0 ∨ 16 ≤ response.stratum then
      (NtpStatus.errServer, st, attempts)
    else
      let server_time := ntp_time_to_unix_time response.tx_timestamp_sec
      (NtpStatus.ok,
       { st with
          time_offset := server_time - localNow
          last_sync_time := localNow
          ntp_time := server_time
          ever_synced := true }, attempts)

/-- Mirror of `ntp_sync` as the caller sees it: status and resulting state. -/
def ntp_sync (st : ClientState) (exchange : Nat → NtpStatus × NtpPacket)
    (localNow : Int) : NtpStatus × ClientState :=
  ((ntp_sync_full st exchange localNow).1, (ntp_sync_full st exchange localNow).2.1)

/-- Mirror of `ntp_init` (src/ntp_client.c lines 231-256) on the state part
    (the NULL-config and mutex-failure returns concern pointers and pthreads,
    outside the state model): copy the configuration and reset all state
    fields. -/
def ntp_init (config : NtpConfig) : ClientState :=
  { inited := true
    ever_synced := false
    config := config
    last_sync_time := 0
    ntp_time := 0
    time_offset := 0 }

/-- Mirror of `ntp_cleanup` (src/ntp_client.c lines 258-265): only the
    `initialized` flag is cleared; `ever_synced`, the offset and the sync
    instant are left in place. -/
def ntp_cleanup (st : ClientState) : ClientState :=
  { st with inited := false }

/-- Mirror of `ntp_getCurrentTime` (src/ntp_client.c lines 337-358):
    0 unless initialized and ever synced, else `tv_sec + time_offset` where
    `localNow` is the `gettimeofday` second read. -/
def ntp_getCurrentTime (st : ClientState) (localNow : Int) : Int :=
  if st.inited = false ∨ st.ever_synced = false then 0
  else localNow + st.time_offset

/-- Mirror of `ntp_getTimeSinceLastSync` (src/ntp_client.c lines 360-381):
    -1 unless initialized and ever synced, else `tv_sec - last_sync_time`. -/
def ntp_getTimeSinceLastSync (st : ClientState) (localNow : Int) : Int :=
  if st.inited = false ∨ st.ever_synced = false then -1
  else localNow - st.last_sync_time

/-- Mirror of `ntp_hasEverSynced` (src/ntp_client.c lines 405-413):
    `initialized && ever_synced`. -/
def ntp_hasEverSynced (st : ClientState) : Bool :=
  st.inited && st.ever_synced

/-- Mirror of `ntp_getServerName` (src/ntp_client.c lines 383-403). The C
    function takes `char *buffer` and `size_t buffer_size`; here `bufNull`
    says whether the pointer is NULL and the second component of the result is
    the byte content written to the buffer (`none` when nothing is written).
    `strncpy(buffer, name, buffer_size - 1)` writes the first
    `buffer_size - 1` bytes of the name padded with NULs, and then
    `buffer[buffer_size - 1] = 0` is stored. -/
def ntp_getServerName (st : ClientState) (bufNull : Bool) (bufSize : Nat) :
    Bool × Option (List Nat) :=
  if bufNull = true ∨ bufSize = 0 then (false, none)
  else if st.inited = false ∨ st.ever_synced = false then (false, none)
  else
    let copied := List.take (bufSize - 1)
      (st.config.server_name ++ List.replicate (bufSize - 1) 0)
    (true, some (copied ++ [0]))

/-- Mirror of `ntp_setServer` (src/ntp_client.c lines 415-435) on the state
    part: NULL name → INVALID_PARAM; not initialized → NOT_INIT; else replace
    the configured server name (truncated by strncpy to the 256-byte field,
    always NUL-terminated — the stored content model keeps the bytes before
    the NUL, i.e. at most 255 of them). -/
def ntp_setServer (st : ClientState) (nameNull : Bool) (name : List Nat) :
    NtpStatus × ClientState :=
  if nameNull = true then (NtpStatus.errInvalidParam, st)
  else if st.inited = false then (NtpStatus.errNotInit, st)
  else (NtpStatus.ok,
    { st with config := { st.config with server_name := List.take 255 name } })

/-- Mirror of `ntp_getCurrentTimeWithMicros` (src/ntp_client.c lines 437-458)
    over exact rationals: 0 unless initialized and ever synced, else
    `tv_sec + tv_usec / 1000000 + time_offset`. `localSec` / `localUsec` are
    the `gettimeofday` reading. -/
def ntp_getCurrentTimeWithMicros (st : ClientState) (localSec : Int)
    (localUsec : Nat) : Rat :=
  if st.inited = false ∨ st.ever_synced = false then 0
  else (localSec : Rat) + (localUsec : Rat) / 1000000 + (st.time_offset : Rat)

/-- Truncation toward zero of a rational to an integer, the semantics of the
    C casts `(long)` and `(int)` applied to a `double`. -/
def ratTrunc (x : Rat) : Int :=
  if 0 ≤ x then ⌊x⌋ else -⌊-x⌋

/-- C integer division truncates toward zero; for the positive divisors used
    here this is floor division on the absolute value with the dividend's
    sign. -/
def ctdiv (a n : Int) : Int :=
  if 0 ≤ a then a / n else -((-a) / n)

/-- C `%`: remainder of truncating division, `a - n * (a / n)` with `/`
    truncating toward zero, so the result takes the dividend's sign. -/
def cmod (a n : Int) : Int :=
  a - n * ctdiv a n

/-- Mirror of `ntp_getCurrentHundredths` (src/ntp_client.c lines 460-479):
    read `ntp_getCurrentTimeWithMicros`; if it is 0.0 return 0; else take the
    fractional part `t - (long)t`, multiply by 100, cast to `int` and reduce
    with the C `% 100`. -/
def ntp_getCurrentHundredths (st : ClientState) (localSec : Int)
    (localUsec : Nat) : Int :=
  let t := ntp_getCurrentTimeWithMicros st localSec localUsec
  if t = 0 then 0
  else
    let fracPart := t - (ratTrunc t : Rat)
    cmod (ratTrunc (fracPart * 100)) 100

/-- Event alphabet for the locking discipline of `ntp_sync`: taking and
    releasing `client_state.lock`, calling `send_ntp_request` (all network
    I/O: DNS resolution, send, timed wait, receive), and the 500 ms
    `usleep`. -/
inductive SyncEvent where
  | lockEv
  | unlockEv
  | netCall (attempt : Nat)
  | sleepEv
deriving DecidableEq

/-- Event trace of the retry loop (src/ntp_client.c lines 282-298), same
    shape as `syncLoopAux`: each iteration calls `send_ntp_request`, and when
    it retries it unlocks, sleeps 500 ms, and re-locks before the next call. -/
def syncLoopTraceAux (exchange : Nat → NtpStatus × NtpPacket) :
    Nat → Nat → List SyncEvent
  | attempts, 0 => [SyncEvent.netCall attempts]
  | attempts, remaining + 1 =>
    if (exchange attempts).1 = NtpStatus.ok then [SyncEvent.netCall attempts]
    else SyncEvent.netCall attempts :: SyncEvent.unlockEv :: SyncEvent.sleepEv ::
      SyncEvent.lockEv :: syncLoopTraceAux exchange (attempts + 1) remaining

/-- Event trace of one `ntp_sync` call (src/ntp_client.c lines 267-335):
    the lock is taken at line 274; if not initialized it is released and the
    call returns; otherwise the retry loop runs and every return path
    (transport error, validation failure, commit) releases the lock at the
    end. Validation and commit produce no events of this alphabet. -/
def ntp_sync_trace (st : ClientState)
    (exchange : Nat → NtpStatus × NtpPacket) : List SyncEvent :=
  SyncEvent.lockEv ::
    (if st.inited = false then [SyncEvent.unlockEv]
     else syncLoopTraceAux exchange 0 (st.config.retry_count - 1)
       ++ [SyncEvent.unlockEv])

/-- Check whether some network call in the trace happens while the lock depth
    is positive (i.e. with the Clock State lock held). -/
def netWhileLocked : Nat → List SyncEvent → Bool
  | _, [] => false
  | d, SyncEvent.lockEv :: es => netWhileLocked (d + 1) es
  | d, SyncEvent.unlockEv :: es => netWhileLocked (d - 1) es
  | d, SyncEvent.netCall _ :: es => decide (0 < d) || netWhileLocked d es
  | d, SyncEvent.sleepEv :: es => netWhileLocked d es

/-- Test configuration from the spec scenario:
    server "test" (byte content), port 123, timeout 5000 ms, retries 3,
    sync interval 7200 s. -/
def cfgTest : NtpConfig :=
  { server_name := [116, 101, 115, 116]
    server_port := 123
    timeout_ms := 5000
    retry_count := 3
    sync_interval := 7200 }

/-- Freshly initialized state with the test configuration. -/
def stTest : ClientState := ntp_init cfgTest

/-- Valid server response carrying the NTP transmit second for Unix time
    1700000000 (NTP 3908988800): LI = 0, version 4, mode 4
    (`li_vn_mode = 0x24 = 36`), stratum 2. -/
def pktValid : NtpPacket :=
  { li_vn_mode := 36
    stratum := 2
    poll := 0
    precision := 0
    root_delay := 0
    root_dispersion := 0
    ref_id := 0
    ref_timestamp_sec := 0
    ref_timestamp_frac := 0
    orig_timestamp_sec := 0
    orig_timestamp_frac := 0
    recv_timestamp_sec := 3908988800
    recv_timestamp_frac := 0
    tx_timestamp_sec := 3908988800
    tx_timestamp_frac := 0 }

/-- Same packet with stratum 0 ("unsynchronized"), for the validation
    claims. -/
def pktStratum0 : NtpPacket :=
  { pktValid with stratum := 0 }

section LoopLemmas

variable (exchange : Nat → NtpStatus × NtpPacket)

/-- Shape of the loop result: the returned status/response come from the last
    attempt performed, whose index is one less than the returned attempt
    count. -/
theorem syncLoopAux_shape : ∀ remaining attempts : Nat, ∃ j : Nat,
    j ≤ remaining ∧
    syncLoopAux exchange attempts remaining =
      (attempts + j + 1, exchange (attempts + j)) := by
  intro remaining
  induction remaining with
  | zero => intro attempts; exact ⟨0, Nat.le_refl 0, rfl⟩
  | succ r ih =>
    intro attempts
    by_cases hx : (exchange attempts).1 = NtpStatus.ok
    · exact ⟨0, Nat.zero_le _, by simp [syncLoopAux, hx]⟩
    · obtain ⟨j, hj, heq⟩ := ih (attempts + 1)
      refine ⟨j + 1, by omega, ?_⟩
      simp only [syncLoopAux, if_neg hx, heq]
      have harith : attempts + 1 + j = attempts + (j + 1) := by omega
      rw [harith]

/-- When every attempt the guard allows fails, the loop runs them all and
    returns the outcome of the last one. -/
theorem syncLoopAux_all_fail : ∀ remaining attempts : Nat,
    (∀ i, attempts ≤ i → i ≤ attempts + remaining →
      (exchange i).1 ≠ NtpStatus.ok) →
    syncLoopAux exchange attempts remaining =
      (attempts + remaining + 1, exchange (attempts + remaining)) := by
  intro remaining
  induction remaining with
  | zero => intro attempts _; rfl
  | succ r ih =>
    intro attempts hfail
    have hx : (exchange attempts).1 ≠ NtpStatus.ok :=
      hfail attempts (Nat.le_refl _) (by omega)
    simp only [syncLoopAux, if_neg hx]
    rw [ih (attempts + 1) (fun i h1 h2 => hfail i (by omega) (by omega))]
    have harith : attempts + 1 + r = attempts + (r + 1) := by omega
    rw [harith]

/-- The loop stops at the first successful attempt within the allowed
    range. -/
theorem syncLoopAux_first_ok : ∀ remaining attempts k : Nat,
    attempts ≤ k → k ≤ attempts + remaining →
    (∀ i, attempts ≤ i → i < k → (exchange i).1 ≠ NtpStatus.ok) →
    (exchange k).1 = NtpStatus.ok →
    syncLoopAux exchange attempts remaining = (k + 1, exchange k) := by
  intro remaining
  induction remaining with
  | zero =>
    intro attempts k h1 h2 _ _
    have : k = attempts := by omega
    subst this; rfl
  | succ r ih =>
    intro attempts k h1 h2 hfail hok
    by_cases hx : (exchange attempts).1 = NtpStatus.ok
    · have : k = attempts := by
        by_contra hne
        exact hfail attempts (Nat.le_refl _) (by omega) hx
      subst this
      simp [syncLoopAux, hx]
    · have hka : attempts ≠ k := fun h => hx (h ▸ hok)
      simp only [syncLoopAux, if_neg hx]
      exact ih (attempts + 1) k (by omega) (by omega)
        (fun i hi1 hi2 => hfail i (by omega) hi2) hok

end LoopLemmas

/-- Dispatch helper: once the retry loop is known to end with attempt j, the
    whole of `ntp_sync_full` is the validation/commit cascade applied to the
    response of attempt j. -/
theorem ntp_sync_full_eq_dispatch (st : ClientState)
    (exchange : Nat → NtpStatus × NtpPacket) (localNow : Int) (j : Nat)
    (hinit : st.inited = true)
    (hloop : syncLoop exchange st.config.retry_count = (j + 1, exchange j)) :
    ntp_sync_full st exchange localNow =
      if (exchange j).1 ≠ NtpStatus.ok then ((exchange j).1, st, j + 1)
      else if (exchange j).2.li_vn_mode &&& 7 ≠ 4 ∧
          (exchange j).2.li_vn_mode &&& 7 ≠ 2 then
        (NtpStatus.errServer, st, j + 1)
      else if (exchange j).2.stratum = 0 ∨ 16 ≤ (exchange j).2.stratum then
        (NtpStatus.errServer, st, j + 1)
      else
        (NtpStatus.ok,
         { st with
            time_offset := ntp_time_to_unix_time (exchange j).2.tx_timestamp_sec - localNow
            last_sync_time := localNow
            ntp_time := ntp_time_to_unix_time (exchange j).2.tx_timestamp_sec
            ever_synced := true }, j + 1) := by
  simp only [ntp_sync_full, hinit, Bool.true_eq_false, if_false, hloop]

/-- Loop-entry helper: when attempt k is the first success within the retry
    budget, `syncLoop` stops there. -/
theorem syncLoop_first_ok (exchange : Nat → NtpStatus × NtpPacket)
    (retryCount k : Nat) (hk : k ≤ retryCount - 1)
    (hfail : ∀ i, i < k → (exchange i).1 ≠ NtpStatus.ok)
    (hok : (exchange k).1 = NtpStatus.ok) :
    syncLoop exchange retryCount = (k + 1, exchange k) :=
  syncLoopAux_first_ok exchange (retryCount - 1) 0 k (Nat.zero_le _) (by omega)
    (fun i _ h2 => hfail i h2) hok

/-- Loop-entry helper: when every attempt within the budget fails, the loop
    runs all of them and keeps the last outcome. -/
theorem syncLoop_all_fail (exchange : Nat → NtpStatus × NtpPacket)
    (retryCount : Nat)
    (hfail : ∀ i, i ≤ retryCount - 1 → (exchange i).1 ≠ NtpStatus.ok) :
    syncLoop exchange retryCount =
      (retryCount - 1 + 1, exchange (retryCount - 1)) := by
  have h := syncLoopAux_all_fail exchange (retryCount - 1) 0
    (fun i h1 h2 => hfail i (by omega))
  simpa using h

/-- Helper: a transport call whose hostname resolution fails reports
    NTP_ERROR_NETWORK (every system call before resolution also reports
    NTP_ERROR_NETWORK when it fails, so no hypothesis on those is needed). -/
theorem resolve_fail_network (env : NetEnv) (hr : env.resolve_ok = false) :
    (send_ntp_request env).1 = NtpStatus.errNetwork := by
  by_cases h1 : env.socket_ok = false
  · simp [send_ntp_request, h1]
  · by_cases h2 : env.setsockopt_ok = false
    · simp [send_ntp_request, h1, h2]
    · simp [send_ntp_request, h1, h2, hr]

/-- Claim C1: on a successful sync the orchestrator commits
    offset = ntp_to_unix(transmit seconds) - local_now,
    last_sync_instant = local_now and ever_synced = true, and every
    subsequent `current_time` call at local reading L returns L + offset. -/
theorem sync_commit_offset_and_current_time (st : ClientState)
    (exchange : Nat → NtpStatus × NtpPacket) (localNow : Int)
    (hinit : st.inited = true)
    (hok : (exchange 0).1 = NtpStatus.ok)
    (hmode : (exchange 0).2.li_vn_mode &&& 7 = 4 ∨
      (exchange 0).2.li_vn_mode &&& 7 = 2)
    (hstrat : 1 ≤ (exchange 0).2.stratum ∧ (exchange 0).2.stratum ≤ 15) :
    (ntp_sync st exchange localNow).1 = NtpStatus.ok ∧
    (ntp_sync st exchange localNow).2.time_offset =
      ntp_time_to_unix_time (exchange 0).2.tx_timestamp_sec - localNow ∧
    (ntp_sync st exchange localNow).2.last_sync_time = localNow ∧
    (ntp_sync st exchange localNow).2.ever_synced = true ∧
    ∀ L : Int, ntp_getCurrentTime (ntp_sync st exchange localNow).2 L =
      L + (ntp_sync st exchange localNow).2.time_offset := by
  have hloop : syncLoop exchange st.config.retry_count = (0 + 1, exchange 0) :=
    syncLoop_first_ok exchange _ 0 (Nat.zero_le _) (fun i h => absurd h (by omega)) hok
  have hdisp := ntp_sync_full_eq_dispatch st exchange localNow 0 hinit hloop
  have hmode2 : ¬((exchange 0).2.li_vn_mode &&& 7 ≠ 4 ∧
      (exchange 0).2.li_vn_mode &&& 7 ≠ 2) := by
    rcases hmode with h | h <;> simp [h]
  have hstrat2 : ¬((exchange 0).2.stratum = 0 ∨ 16 ≤ (exchange 0).2.stratum) := by
    omega
  rw [if_neg (by simp [hok]), if_neg hmode2, if_neg hstrat2] at hdisp
  refine ⟨?_, ?_, ?_, ?_, fun L => ?_⟩ <;>
    simp [ntp_sync, hdisp, ntp_getCurrentTime, hinit]

/-- Claim C1 witness: the spec scenario — server transmit second is the NTP
    form of Unix 1700000000, the local clock reads 1699999995 at commit, the
    committed offset is 5, and `current_time` at local reading 1699999999
    returns 1700000004. -/
theorem sync_commit_offset_and_current_time_witness :
    (ntp_sync stTest (fun _ => (NtpStatus.ok, pktValid)) 1699999995).1 = NtpStatus.ok ∧
    (ntp_sync stTest (fun _ => (NtpStatus.ok, pktValid)) 1699999995).2.time_offset = 5 ∧
    ntp_getCurrentTime (ntp_sync stTest (fun _ => (NtpStatus.ok, pktValid)) 1699999995).2 1699999999 =
      1700000004 := by
  have h := sync_commit_offset_and_current_time stTest
    (fun _ => (NtpStatus.ok, pktValid)) 1699999995 rfl rfl (Or.inl rfl) (by decide)
  refine ⟨h.1, ?_, ?_⟩ <;> decide

/-- Claim C2: for every initialized state and retry_count ≥ 1, `ntp_sync`
    performs at most retry_count transport attempts; when all attempts within
    the budget fail the last error is returned with the state unchanged — in
    particular ever_synced (so it remains false when it was false), the
    offset and the last sync instant are preserved; and when attempt k is the
    first success the loop stops there (k+1 attempts) and, for a valid
    response, the sync commits on that attempt: it returns NTP_OK with
    offset = ntp_to_unix(attempt k transmit seconds) - local_now,
    last_sync_instant = local_now and ever_synced = true. -/
theorem sync_retry_budget (st : ClientState)
    (exchange : Nat → NtpStatus × NtpPacket) (localNow : Int)
    (hinit : st.inited = true) (hrc : 1 ≤ st.config.retry_count) :
    (ntp_sync_full st exchange localNow).2.2 ≤ st.config.retry_count ∧
    ((∀ i, i < st.config.retry_count → (exchange i).1 ≠ NtpStatus.ok) →
      ntp_sync st exchange localNow =
        ((exchange (st.config.retry_count - 1)).1, st) ∧
      (ntp_sync st exchange localNow).2.ever_synced = st.ever_synced ∧
      (ntp_sync st exchange localNow).2.time_offset = st.time_offset ∧
      (ntp_sync st exchange localNow).2.last_sync_time = st.last_sync_time) ∧
    (∀ k, k < st.config.retry_count →
      (∀ i, i < k → (exchange i).1 ≠ NtpStatus.ok) →
      (exchange k).1 = NtpStatus.ok →
      (ntp_sync_full st exchange localNow).2.2 = k + 1 ∧
      (((exchange k).2.li_vn_mode &&& 7 = 4 ∨ (exchange k).2.li_vn_mode &&& 7 = 2) →
        1 ≤ (exchange k).2.stratum → (exchange k).2.stratum ≤ 15 →
        ntp_sync st exchange localNow =
          (NtpStatus.ok,
           { st with
              time_offset :=
                ntp_time_to_unix_time (exchange k).2.tx_timestamp_sec - localNow
              last_sync_time := localNow
              ntp_time := ntp_time_to_unix_time (exchange k).2.tx_timestamp_sec
              ever_synced := true }))) := by
  obtain ⟨j, hj, hshape⟩ := syncLoopAux_shape exchange (st.config.retry_count - 1) 0
  have hloopj : syncLoop exchange st.config.retry_count = (j + 1, exchange j) := by
    simpa [syncLoop] using hshape
  have hdispj := ntp_sync_full_eq_dispatch st exchange localNow j hinit hloopj
  refine ⟨?_, ?_, ?_⟩
  · rw [hdispj]
    split_ifs <;> simp <;> omega
  · intro hall
    have hloop : syncLoop exchange st.config.retry_count =
        (st.config.retry_count - 1 + 1, exchange (st.config.retry_count - 1)) :=
      syncLoop_all_fail exchange _ (fun i h => hall i (by omega))
    have hdisp := ntp_sync_full_eq_dispatch st exchange localNow
      (st.config.retry_count - 1) hinit hloop
    rw [if_pos (hall (st.config.retry_count - 1) (by omega))] at hdisp
    have heq : ntp_sync st exchange localNow =
        ((exchange (st.config.retry_count - 1)).1, st) := by
      simp [ntp_sync, hdisp]
    rw [heq]
    exact ⟨rfl, rfl, rfl, rfl⟩
  · intro k hk hfail hok
    have hloop : syncLoop exchange st.config.retry_count = (k + 1, exchange k) :=
      syncLoop_first_ok exchange _ k (by omega) hfail hok
    have hdisp := ntp_sync_full_eq_dispatch st exchange localNow k hinit hloop
    rw [if_neg (by simp [hok])] at hdisp
    constructor
    · rw [hdisp]
      split_ifs <;> rfl
    · intro hmode hs1 hs2
      have hmode2 : ¬((exchange k).2.li_vn_mode &&& 7 ≠ 4 ∧
          (exchange k).2.li_vn_mode &&& 7 ≠ 2) := by
        rcases hmode with h | h <;> simp [h]
      have hstrat2 : ¬((exchange k).2.stratum = 0 ∨ 16 ≤ (exchange k).2.stratum) := by
        omega
      rw [if_neg hmode2, if_neg hstrat2] at hdisp
      simp [ntp_sync, hdisp]

/-- Transport mock for the C2 witness: attempts 0 and 1 fail with a network
    error, attempt 2 (and any later one) succeeds with a valid response. -/
def exchTwoFail : Nat → NtpStatus × NtpPacket := fun i =>
  if i < 2 then (NtpStatus.errNetwork, pktValid) else (NtpStatus.ok, pktValid)

/-- State initialized with retry_count = 2 for the C2 witness. -/
def stRetry2 : ClientState := ntp_init { cfgTest with retry_count := 2 }

/-- Claim C2 witness: an exchange failing twice then succeeding, with
    retry_count = 3, commits on the third attempt (attempt count 3, status
    NTP_OK, ever_synced true, offset 5 from the transmit second of the
    successful attempt); with retry_count = 2 it surfaces NTP_ERROR_NETWORK
    after 2 attempts and the state — ever_synced still false, offset and
    last sync instant untouched — is returned unchanged. -/
theorem sync_retry_budget_witness :
    (ntp_sync stTest exchTwoFail 1699999995).1 = NtpStatus.ok ∧
    (ntp_sync stTest exchTwoFail 1699999995).2.ever_synced = true ∧
    (ntp_sync stTest exchTwoFail 1699999995).2.time_offset = 5 ∧
    (ntp_sync stTest exchTwoFail 1699999995).2.last_sync_time = 1699999995 ∧
    (ntp_sync_full stTest exchTwoFail 1699999995).2.2 = 3 ∧
    (ntp_sync_full stTest exchTwoFail 1699999995).2.2 ≤ 3 ∧
    ntp_sync stRetry2 exchTwoFail 1699999995 = (NtpStatus.errNetwork, stRetry2) ∧
    (ntp_sync stRetry2 exchTwoFail 1699999995).2.ever_synced = false := by
  have h := sync_retry_budget stTest exchTwoFail 1699999995 rfl (by decide)
  have h3 := h.2.2 2 (by decide) (by decide) (by decide)
  have hcommit := h3.2 (Or.inl (by decide)) (by decide) (by decide)
  have h2 := sync_retry_budget stRetry2 exchTwoFail 1699999995 rfl (by decide)
  have hfail2 := (h2.2.1 (by decide)).1
  refine ⟨by rw [hcommit], ?_, ?_, ?_, h3.1, h.1, hfail2, ?_⟩ <;> decide

/-- Claim C3: a response is accepted only when its mode (low 3 bits of the
    first byte) is 4 or 2 and its stratum lies in [1, 15]; and a
    first-attempt response that violates either condition makes `ntp_sync`
    return NTP_ERROR_SERVER after exactly one transport attempt, with the
    state unchanged, regardless of the configured retry_count. -/
theorem sync_validation_gate (st : ClientState)
    (exchange : Nat → NtpStatus × NtpPacket) (localNow : Int)
    (hinit : st.inited = true) :
    ((ntp_sync_full st exchange localNow).1 = NtpStatus.ok →
      ∃ k, (ntp_sync_full st exchange localNow).2.2 = k + 1 ∧
        (exchange k).1 = NtpStatus.ok ∧
        ((exchange k).2.li_vn_mode &&& 7 = 4 ∨ (exchange k).2.li_vn_mode &&& 7 = 2) ∧
        1 ≤ (exchange k).2.stratum ∧ (exchange k).2.stratum ≤ 15) ∧
    ((exchange 0).1 = NtpStatus.ok →
      (¬((exchange 0).2.li_vn_mode &&& 7 = 4 ∨ (exchange 0).2.li_vn_mode &&& 7 = 2) ∨
        (exchange 0).2.stratum = 0 ∨ 16 ≤ (exchange 0).2.stratum) →
      ntp_sync_full st exchange localNow = (NtpStatus.errServer, st, 1)) := by
  obtain ⟨j, hj, hshape⟩ := syncLoopAux_shape exchange (st.config.retry_count - 1) 0
  have hloopj : syncLoop exchange st.config.retry_count = (j + 1, exchange j) := by
    simpa [syncLoop] using hshape
  have hdispj := ntp_sync_full_eq_dispatch st exchange localNow j hinit hloopj
  constructor
  · intro hres
    by_cases hs : (exchange j).1 = NtpStatus.ok
    · rw [if_neg (by simp [hs])] at hdispj
      by_cases hm : (exchange j).2.li_vn_mode &&& 7 ≠ 4 ∧ (exchange j).2.li_vn_mode &&& 7 ≠ 2
      · rw [if_pos hm] at hdispj
        rw [hdispj] at hres
        simp at hres
      · rw [if_neg hm] at hdispj
        by_cases hst : (exchange j).2.stratum = 0 ∨ 16 ≤ (exchange j).2.stratum
        · rw [if_pos hst] at hdispj
          rw [hdispj] at hres
          simp at hres
        · rw [if_neg hst] at hdispj
          have hmgood : (exchange j).2.li_vn_mode &&& 7 = 4 ∨
              (exchange j).2.li_vn_mode &&& 7 = 2 := by
            rcases not_and_or.mp hm with h | h
            · exact Or.inl (not_not.mp h)
            · exact Or.inr (not_not.mp h)
          have hsgood : 1 ≤ (exchange j).2.stratum ∧ (exchange j).2.stratum ≤ 15 := by
            push_neg at hst
            omega
          exact ⟨j, by rw [hdispj], hs, hmgood, hsgood.1, hsgood.2⟩
    · rw [if_pos hs] at hdispj
      rw [hdispj] at hres
      exact absurd hres hs
  · intro hok hbad
    have hloop : syncLoop exchange st.config.retry_count = (0 + 1, exchange 0) :=
      syncLoop_first_ok exchange _ 0 (Nat.zero_le _) (fun i h => absurd h (by omega)) hok
    have hdisp := ntp_sync_full_eq_dispatch st exchange localNow 0 hinit hloop
    rw [if_neg (by simp [hok])] at hdisp
    by_cases hm : (exchange 0).2.li_vn_mode &&& 7 ≠ 4 ∧ (exchange 0).2.li_vn_mode &&& 7 ≠ 2
    · rw [if_pos hm] at hdisp
      exact hdisp
    · rw [if_neg hm] at hdisp
      have hst : (exchange 0).2.stratum = 0 ∨ 16 ≤ (exchange 0).2.stratum := by
        rcases hbad with h | h
        · exact absurd (not_or.mp h) hm
        · exact h
      rw [if_pos hst] at hdisp
      exact hdisp

/-- Claim C6 counterexample and companion: with hostname resolution failing
    (all other calls fine), the exchange reports NTP_ERROR_NETWORK itself —
    not an error distinct from NetworkError — and the status type
    `ntp_status_t` has no ResolutionError member at all, only the six listed
    values. -/
def envResolveFail : NetEnv :=
  { socket_ok := true
    setsockopt_ok := true
    resolve_ok := false
    inet_pton_ok := true
    send_ok := true
    select_result := 1
    recv_result := 48
    received := pktValid }

/-- Claim C3 witness: a first-attempt response with stratum = 0 (but valid
    mode) makes the sync fail with NTP_ERROR_SERVER after exactly one
    transport attempt, with retry_count = 3 configured and the state
    untouched. -/
theorem sync_validation_gate_witness :
    stTest.config.retry_count = 3 ∧
    ntp_sync_full stTest (fun _ => (NtpStatus.ok, pktStratum0)) 1699999995 =
      (NtpStatus.errServer, stTest, 1) := by
  refine ⟨rfl, ?_⟩
  exact (sync_validation_gate stTest (fun _ => (NtpStatus.ok, pktStratum0))
    1699999995 rfl).2 rfl (Or.inr (Or.inl rfl))

/-- Claim C6 counterexample: with hostname resolution failing and every
    other call fine, the exchange reports NTP_ERROR_NETWORK itself — not an
    error distinct from NetworkError — and `ntp_status_t` has no
    ResolutionError member at all: its only values are the six below. -/
theorem resolution_error_not_distinct :
    (send_ntp_request envResolveFail).1 = NtpStatus.errNetwork ∧
    ∀ s : NtpStatus, s = NtpStatus.ok ∨ s = NtpStatus.errNetwork ∨
      s = NtpStatus.errTimeout ∨ s = NtpStatus.errServer ∨
      s = NtpStatus.errInvalidParam ∨ s = NtpStatus.errNotInit := by
  refine ⟨by decide, ?_⟩
  intro s
  cases s <;> simp

/-- Claim C6 (amended): when hostname resolution fails the exchange fails
    with NTP_ERROR_NETWORK — the same code used for socket faults, since the
    taxonomy has no distinct resolution error — and `ntp_sync` surfaces the
    same NTP_ERROR_NETWORK. -/
theorem resolution_failure_reports_network_error (env : NetEnv)
    (hr : env.resolve_ok = false) :
    (send_ntp_request env).1 = NtpStatus.errNetwork ∧
    ∀ (st : ClientState) (envs : Nat → NetEnv) (localNow : Int),
      st.inited = true →
      (∀ i, (envs i).resolve_ok = false) →
      (ntp_sync st (fun i => send_ntp_request (envs i)) localNow).1 =
        NtpStatus.errNetwork := by
  refine ⟨resolve_fail_network env hr, ?_⟩
  intro st envs localNow hinit hall
  have hfail : ∀ i, i ≤ st.config.retry_count - 1 →
      ((fun i => send_ntp_request (envs i)) i).1 ≠ NtpStatus.ok := by
    intro i _
    rw [resolve_fail_network (envs i) (hall i)]
    intro h
    exact NtpStatus.noConfusion h
  have hloop := syncLoop_all_fail (fun i => send_ntp_request (envs i))
    st.config.retry_count hfail
  have hdisp := ntp_sync_full_eq_dispatch st (fun i => send_ntp_request (envs i))
    localNow (st.config.retry_count - 1) hinit hloop
  rw [if_pos (hfail _ (Nat.le_refl _))] at hdisp
  simp only [ntp_sync, hdisp]
  exact resolve_fail_network (envs (st.config.retry_count - 1)) (hall _)

/-- Claim C6 witness: the concrete resolution-failure environment, both for
    a single exchange and through a full sync on the test state. -/
theorem resolution_failure_reports_network_error_witness :
    (send_ntp_request envResolveFail).1 = NtpStatus.errNetwork ∧
    (ntp_sync stTest (fun _ => send_ntp_request envResolveFail) 0).1 =
      NtpStatus.errNetwork := by
  have h := resolution_failure_reports_network_error envResolveFail rfl
  exact ⟨h.1, h.2 stTest (fun _ => envResolveFail) 0 rfl (fun _ => rfl)⟩

/-- Environment for the C7 counterexample: every system call succeeds and
    `recvfrom` returns a 10-byte datagram, shorter than the 48-byte packet
    layout. -/
def envShort : NetEnv :=
  { socket_ok := true
    setsockopt_ok := true
    resolve_ok := true
    inet_pton_ok := true
    send_ok := true
    select_result := 1
    recv_result := 10
    received := pktValid }

/-- Claim C7 counterexample: a 10-byte datagram — shorter than the fixed
    48-byte layout — is accepted: the exchange returns NTP_OK, not
    NTP_ERROR_NETWORK, because the code never compares the `recvfrom` length
    against the layout size. -/
theorem short_datagram_accepted :
    send_ntp_request envShort = (NtpStatus.ok, pktValid) ∧
    (send_ntp_request envShort).1 ≠ NtpStatus.errNetwork := by
  exact ⟨by decide, by decide⟩

/-- Claim C7 (amended): the receive step fails with NTP_ERROR_NETWORK exactly
    when `recvfrom` itself reports an error (negative return value); any
    nonnegative return — including a datagram shorter than the 48-byte
    layout — is accepted as a valid response. -/
theorem recv_error_check_only (env : NetEnv)
    (h1 : env.socket_ok = true) (h2 : env.setsockopt_ok = true)
    (h3 : env.resolve_ok = true) (h4 : env.inet_pton_ok = true)
    (h5 : env.send_ok = true) (h6 : 0 < env.select_result) :
    (env.recv_result < 0 → (send_ntp_request env).1 = NtpStatus.errNetwork) ∧
    (0 ≤ env.recv_result → send_ntp_request env = (NtpStatus.ok, env.received)) := by
  have hs1 : ¬(env.select_result < 0) := by omega
  have hs2 : ¬(env.select_result = 0) := by omega
  constructor
  · intro h
    simp [send_ntp_request, h1, h2, h3, h4, h5, hs1, hs2, h]
  · intro h
    have hr : ¬(env.recv_result < 0) := by omega
    simp [send_ntp_request, h1, h2, h3, h4, h5, hs1, hs2, hr]

/-- Claim C7 witness: the short datagram (10 bytes) is accepted as NTP_OK
    while a negative `recvfrom` return is reported as NTP_ERROR_NETWORK. -/
theorem recv_error_check_only_witness :
    send_ntp_request envShort = (NtpStatus.ok, pktValid) ∧
    (send_ntp_request { envShort with recv_result := -1 }).1 =
      NtpStatus.errNetwork := by
  have h := recv_error_check_only envShort rfl rfl rfl rfl rfl (by decide)
  have h2 := recv_error_check_only { envShort with recv_result := -1 }
    rfl rfl rfl rfl rfl (by decide)
  exact ⟨h.2 (by decide), h2.1 (by decide)⟩

/-- Truncation toward zero agrees with the floor on nonnegative inputs. -/
theorem ratTrunc_of_nonneg (x : Rat) (h : 0 ≤ x) : ratTrunc x = ⌊x⌋ := by
  unfold ratTrunc
  rw [if_pos h]

/-- Truncation toward zero differs from its argument by less than one in
    either direction. -/
theorem ratTrunc_sub_bounds (x : Rat) :
    x - (ratTrunc x : Rat) < 1 ∧ -1 < x - (ratTrunc x : Rat) := by
  unfold ratTrunc
  by_cases h : 0 ≤ x
  · rw [if_pos h]
    have h1 := Int.floor_le x
    have h2 := Int.lt_floor_add_one x
    constructor <;> linarith
  · rw [if_neg h]
    have h1 := Int.floor_le (-x)
    have h2 := Int.lt_floor_add_one (-x)
    push_cast
    constructor <;> linarith

/-- Truncation toward zero of a rational strictly between -100 and 100 lies
    in [-99, 99]. -/
theorem ratTrunc_small (y : Rat) (h1 : -100 < y) (h2 : y < 100) :
    -99 ≤ ratTrunc y ∧ ratTrunc y ≤ 99 := by
  unfold ratTrunc
  by_cases h : 0 ≤ y
  · rw [if_pos h]
    have hl : (0 : Int) ≤ ⌊y⌋ := Int.floor_nonneg.mpr h
    have hu : ⌊y⌋ < 100 := Int.floor_lt.mpr (by exact_mod_cast h2)
    omega
  · rw [if_neg h]
    have hl : (0 : Int) ≤ ⌊-y⌋ := Int.floor_nonneg.mpr (by linarith)
    have hu : ⌊-y⌋ < 100 := Int.floor_lt.mpr (by push_cast; linarith)
    omega

/-- C remainder by 100 is the identity on (-100, 100). -/
theorem cmod_small (a : Int) (h1 : -100 < a) (h2 : a < 100) : cmod a 100 = a := by
  unfold cmod ctdiv
  by_cases h : 0 ≤ a
  · rw [if_pos h, Int.ediv_eq_zero_of_lt h (by omega)]
    ring
  · rw [if_neg h, Int.ediv_eq_zero_of_lt (by omega) (by omega)]
    ring

/-- Core bound for the hundredths computation applied to an arbitrary
    subsecond reading t: the value is always in [-99, 99], and in [0, 99]
    whenever t is nonnegative. -/
theorem hundredths_core (t : Rat) :
    (-99 ≤ cmod (ratTrunc ((t - (ratTrunc t : Rat)) * 100)) 100 ∧
     cmod (ratTrunc ((t - (ratTrunc t : Rat)) * 100)) 100 ≤ 99) ∧
    (0 ≤ t → 0 ≤ cmod (ratTrunc ((t - (ratTrunc t : Rat)) * 100)) 100) := by
  have hf := ratTrunc_sub_bounds t
  have hy1 : (t - (ratTrunc t : Rat)) * 100 < 100 := by nlinarith [hf.1]
  have hy2 : (-100 : Rat) < (t - (ratTrunc t : Rat)) * 100 := by nlinarith [hf.2]
  have htr := ratTrunc_small _ hy2 hy1
  have hcm := cmod_small (ratTrunc ((t - (ratTrunc t : Rat)) * 100))
    (by omega) (by omega)
  rw [hcm]
  refine ⟨⟨htr.1, htr.2⟩, ?_⟩
  intro h0
  have hnn : 0 ≤ t - (ratTrunc t : Rat) := by
    rw [ratTrunc_of_nonneg t h0]
    have := Int.floor_le t
    linarith
  have hynn : (0 : Rat) ≤ (t - (ratTrunc t : Rat)) * 100 :=
    mul_nonneg hnn (by norm_num)
  rw [ratTrunc_of_nonneg _ hynn]
  exact Int.floor_nonneg.mpr hynn

/-- Claim C8 (amended): `hundredths_of_second` returns 0 when never synced
    (or uninitialized); its value is always the fractional part of the
    subsecond reading times 100, truncated toward zero, and always lies in
    [-99, 99]; it lies in [0, 99] whenever the adjusted subsecond time is
    nonnegative. The unconditional [0, 99] bound of the claim fails for
    synced states whose adjusted time is negative (see the counterexample),
    where the value can be as low as -99. -/
theorem hundredths_range (st : ClientState) (localSec : Int) (localUsec : Nat) :
    (st.ever_synced = false → ntp_getCurrentHundredths st localSec localUsec = 0) ∧
    (st.inited = false → ntp_getCurrentHundredths st localSec localUsec = 0) ∧
    (-99 ≤ ntp_getCurrentHundredths st localSec localUsec ∧
      ntp_getCurrentHundredths st localSec localUsec ≤ 99) ∧
    (0 ≤ ntp_getCurrentTimeWithMicros st localSec localUsec →
      0 ≤ ntp_getCurrentHundredths st localSec localUsec ∧
      ntp_getCurrentHundredths st localSec localUsec ≤ 99) := by
  have hcore := hundredths_core (ntp_getCurrentTimeWithMicros st localSec localUsec)
  by_cases h0 : ntp_getCurrentTimeWithMicros st localSec localUsec = 0
  · have hval : ntp_getCurrentHundredths st localSec localUsec = 0 := by
      simp [ntp_getCurrentHundredths, h0]
    rw [hval]
    exact ⟨fun _ => rfl, fun _ => rfl, by omega, fun _ => by omega⟩
  · have hval : ntp_getCurrentHundredths st localSec localUsec =
        cmod (ratTrunc ((ntp_getCurrentTimeWithMicros st localSec localUsec -
          (ratTrunc (ntp_getCurrentTimeWithMicros st localSec localUsec) : Rat)) * 100))
          100 := by
      simp [ntp_getCurrentHundredths, h0]
    have hsync : ¬(st.ever_synced = false) := by
      intro hs
      exact h0 (by simp [ntp_getCurrentTimeWithMicros, hs])
    have hinit : ¬(st.inited = false) := by
      intro hs
      exact h0 (by simp [ntp_getCurrentTimeWithMicros, hs])
    rw [hval]
    exact ⟨fun h => absurd h hsync, fun h => absurd h hinit, hcore.1,
      fun h => ⟨hcore.2 h, hcore.1.2⟩⟩

/-- Synced state with a valid configuration and offset 5 for the C8
    witness. -/
def stSynced5 : ClientState :=
  { stTest with ever_synced := true, time_offset := 5 }

/-- Claim C8 witness: the never-synced test state yields 0, and the synced
    state with offset 5 at a positive local reading yields a value in
    [0, 99]. -/
theorem hundredths_range_witness :
    ntp_getCurrentHundredths stTest 1699999999 250000 = 0 ∧
    (0 ≤ ntp_getCurrentHundredths stSynced5 1699999999 0 ∧
      ntp_getCurrentHundredths stSynced5 1699999999 0 ≤ 99) := by
  have h1 := hundredths_range stTest 1699999999 250000
  have h2 := hundredths_range stSynced5 1699999999 0
  refine ⟨h1.1 rfl, h2.2.2.2 ?_⟩
  have hguard : ¬(stSynced5.inited = false ∨ stSynced5.ever_synced = false) := by
    simp [stSynced5, stTest, ntp_init]
  unfold ntp_getCurrentTimeWithMicros
  rw [if_neg hguard]
  norm_num [stSynced5, stTest, ntp_init]

/-- Synced state with a hugely negative offset for the C8 counterexample
    (reachable by a sync against a server whose transmit timestamp is near
    the NTP epoch). -/
def stNegOffset : ClientState :=
  { stTest with ever_synced := true, time_offset := -2000000000 }

/-- Claim C8 counterexample: for a synced state with offset -2000000000 and
    local clock reading 1000 s + 500000 µs, the adjusted subsecond time is
    -1999998999.5 and `ntp_getCurrentHundredths` returns -50, outside
    [0, 99]. Every intermediate value is exactly representable as an IEEE
    double, so the C computation produces the same -50. -/
theorem hundredths_negative_counterexample :
    ntp_getCurrentHundredths stNegOffset 1000 500000 = -50 ∧
    ntp_getCurrentHundredths stNegOffset 1000 500000 < 0 := by
  have hguard : ¬(stNegOffset.inited = false ∨ stNegOffset.ever_synced = false) := by
    simp [stNegOffset, stTest, ntp_init]
  have ht : ntp_getCurrentTimeWithMicros stNegOffset 1000 500000 =
      -(3999997999 / 2 : Rat) := by
    unfold ntp_getCurrentTimeWithMicros
    rw [if_neg hguard]
    show (1000 : Rat) + (500000 : Rat) / 1000000 + ((-2000000000 : Int) : Rat) = _
    push_cast
    norm_num
  have htr1 : ratTrunc (-(3999997999 / 2 : Rat)) = -1999998999 := by
    unfold ratTrunc
    rw [if_neg (by norm_num)]
    norm_num
  have hfrac : (-(3999997999 / 2 : Rat) - ((-1999998999 : Int) : Rat)) * 100 = -50 := by
    push_cast
    norm_num
  have htr2 : ratTrunc (-50 : Rat) = -50 := by
    unfold ratTrunc
    rw [if_neg (by norm_num)]
    norm_num
  have hcm : cmod (-50) 100 = -50 := by
    unfold cmod ctdiv
    rw [if_neg (by norm_num)]
    norm_num
  have hval : ntp_getCurrentHundredths stNegOffset 1000 500000 = -50 := by
    unfold ntp_getCurrentHundredths
    rw [ht, if_neg (by norm_num), htr1]
    simp only [hfrac, htr2, hcm]
  exact ⟨hval, by rw [hval]; norm_num⟩

/-- Claim C4 counterexample: the round-trip law fails at the representable
    Unix time t = 2085978496 (the first second past the 32-bit wrap of the
    NTP era): `unix_time_to_ntp_time` truncates `t + 2208988800 = 2^32` to 0,
    and converting back yields -2208988800, not t. -/
theorem unix_roundtrip_fails_at_wrap :
    ¬ (ntp_time_to_unix_time (unix_time_to_ntp_time 2085978496) = 2085978496) := by
  decide

/-- Claim C4 (amended): `ntp_to_unix(s) = s - 2208988800` exactly for every
    32-bit `s`, and the round trip `ntp_to_unix(unix_to_ntp(t)) = t` holds
    exactly for the Unix times `t` whose NTP representation fits in 32 bits,
    i.e. `0 ≤ t + 2208988800 < 2^32`; beyond that range `unix_to_ntp`
    truncates modulo 2^32 and the round trip fails. -/
theorem unix_ntp_roundtrip (t : Int) (h0 : 0 ≤ t + 2208988800)
    (h1 : t + 2208988800 < 4294967296) :
    ntp_time_to_unix_time (unix_time_to_ntp_time t) = t ∧
    ∀ s : Nat, ntp_time_to_unix_time s = (s : Int) - 2208988800 := by
  constructor
  · simp only [ntp_time_to_unix_time, unix_time_to_ntp_time, NTP_TIMESTAMP_DELTA]
    push_cast
    omega
  · intro s
    simp [ntp_time_to_unix_time, NTP_TIMESTAMP_DELTA]

/-- Claim C4 witness: the round trip at Unix time 1700000000. -/
theorem unix_ntp_roundtrip_witness :
    ntp_time_to_unix_time (unix_time_to_ntp_time 1700000000) = 1700000000 ∧
    unix_time_to_ntp_time 1700000000 = 3908988800 :=
  ⟨(unix_ntp_roundtrip 1700000000 (by decide) (by decide)).1, by decide⟩

/-- Claim C5: on every initialized state, `ntp_sync` performs its network
    I/O (the `send_ntp_request` calls: DNS resolution, send, timed wait)
    while holding the Clock State lock — the lock taken at line 274 of
    src/ntp_client.c is only released around the 500 ms inter-retry sleep
    and at function exit. This contradicts the claim that the lock is
    released before any network call, so the code violates the spec's
    explicit locking requirement (the spec itself flags this divergence). -/
theorem sync_holds_lock_during_network (st : ClientState)
    (exchange : Nat → NtpStatus × NtpPacket) (h : st.inited = true) :
    netWhileLocked 0 (ntp_sync_trace st exchange) = true := by
  simp only [ntp_sync_trace, h, Bool.true_eq_false, if_false, netWhileLocked]
  cases hrem : st.config.retry_count - 1 with
  | zero => simp [syncLoopTraceAux, netWhileLocked]
  | succ r =>
    by_cases hx : (exchange 0).1 = NtpStatus.ok <;>
      simp [syncLoopTraceAux, hx, netWhileLocked]

/-- Claim C5 witness: the concrete initialized test state with an exchange
    that succeeds immediately still makes its network call under the lock. -/
theorem sync_holds_lock_during_network_witness :
    stTest.inited = true ∧
    netWhileLocked 0 (ntp_sync_trace stTest (fun _ => (NtpStatus.ok, pktValid))) = true :=
  ⟨rfl, sync_holds_lock_during_network stTest (fun _ => (NtpStatus.ok, pktValid)) rfl⟩

/-- Claim C9: every query guards on the `initialized` flag, not only on
    `ever_synced`: whenever `initialized` is false, `ntp_getCurrentTime`
    returns 0, `ntp_getTimeSinceLastSync` returns -1 and `ntp_hasEverSynced`
    reports false — even if `ever_synced` is internally still true — and
    `ntp_cleanup` produces exactly such a state from any state. -/
theorem queries_guard_on_initialized (st : ClientState) (L : Int)
    (h : st.inited = false) :
    ntp_getCurrentTime st L = 0 ∧
    ntp_getTimeSinceLastSync st L = -1 ∧
    ntp_hasEverSynced st = false ∧
    ∀ st2 : ClientState,
      ntp_getCurrentTime (ntp_cleanup st2) L = 0 ∧
      ntp_getTimeSinceLastSync (ntp_cleanup st2) L = -1 ∧
      ntp_hasEverSynced (ntp_cleanup st2) = false := by
  refine ⟨?_, ?_, ?_, fun st2 => ⟨?_, ?_, ?_⟩⟩ <;>
    simp [ntp_getCurrentTime, ntp_getTimeSinceLastSync, ntp_hasEverSynced,
      ntp_cleanup, h]

/-- Claim C9 witness: a state that has synced (`ever_synced = true`, offset
    5) but whose `initialized` flag is cleared answers all queries with the
    guard values. -/
theorem queries_guard_on_initialized_witness :
    ntp_getCurrentTime (ntp_cleanup { stTest with ever_synced := true, time_offset := 5 }) 1699999999 = 0 ∧
    ntp_getTimeSinceLastSync (ntp_cleanup { stTest with ever_synced := true, time_offset := 5 }) 1699999999 = -1 ∧
    ntp_hasEverSynced (ntp_cleanup { stTest with ever_synced := true, time_offset := 5 }) = false := by
  have h := queries_guard_on_initialized
    (ntp_cleanup { stTest with ever_synced := true, time_offset := 5 }) 1699999999 rfl
  exact ⟨h.1, h.2.1, h.2.2.1⟩

/-- Claim C10: `ntp_getServerName` returns false and writes nothing when the
    buffer pointer is NULL or the capacity is 0; and whenever it does copy,
    the written content fills exactly the stated capacity and its last byte
    (at index capacity - 1) is the NUL terminator. -/
theorem server_name_buffer_safety (st : ClientState) (bufNull : Bool)
    (bufSize : Nat) :
    ((bufNull = true ∨ bufSize = 0) →
      ntp_getServerName st bufNull bufSize = (false, none)) ∧
    (∀ out, (ntp_getServerName st bufNull bufSize).2 = some out →
      out.length = bufSize ∧ out.getLast? = some 0) := by
  constructor
  · intro h
    simp [ntp_getServerName, h]
  · intro out hout
    by_cases h1 : bufNull = true ∨ bufSize = 0
    · simp [ntp_getServerName, h1] at hout
    · by_cases h2 : st.inited = false ∨ st.ever_synced = false
      · simp [ntp_getServerName, h1, h2] at hout
      · simp only [ntp_getServerName, if_neg h1, if_neg h2, Option.some.injEq] at hout
        have hsz : bufSize ≠ 0 := by
          intro hz
          exact h1 (Or.inr hz)
        constructor
        · rw [← hout]
          simp [List.length_take, List.length_append, List.length_replicate]
          omega
        · rw [← hout]
          exact List.getLast?_concat _

/-- Claim C10 witness: with the synced test state, a NULL buffer and a
    zero-capacity buffer are refused, and a 3-byte buffer receives exactly
    3 bytes ending in NUL ("te" plus terminator from "test"). -/
theorem server_name_buffer_safety_witness :
    ntp_getServerName { stTest with ever_synced := true } true 16 = (false, none) ∧
    ntp_getServerName { stTest with ever_synced := true } false 0 = (false, none) ∧
    ntp_getServerName { stTest with ever_synced := true } false 3 = (true, some [116, 101, 0]) ∧
    [116, 101, (0 : Nat)].length = 3 ∧ [116, 101, (0 : Nat)].getLast? = some 0 := by
  refine ⟨?_, ?_, by decide, ?_, ?_⟩
  · exact (server_name_buffer_safety { stTest with ever_synced := true } true 16).1 (Or.inl rfl)
  · exact (server_name_buffer_safety { stTest with ever_synced := true } false 0).1 (Or.inr rfl)
  · exact ((server_name_buffer_safety { stTest with ever_synced := true } false 3).2
      [116, 101, 0] (by decide)).1
  · exact ((server_name_buffer_safety { stTest with ever_synced := true } false 3).2
      [116, 101, 0] (by decide)).2

end NtpClock
